import Mathlib

/-!
Column metadata to Go struct fields (package `dbmeta`).

A shallow embedding of `dbmeta/meta.go` (package `dbmeta` of the `gen` tool)
and of the two pieces of `main.go` that work on names.

Conventions of the embedding.

* A Go `string` is a Lean `String`; the strings handled here (table, column and
  database type names) are taken to be valid UTF-8 text, so a Go string is the
  sequence of its characters and its bytes are the UTF-8 encoding of them.
* A Go function that can panic returns `Except String α`; `Except.error msg`
  is a panic with message `msg`, `Except.ok v` is a normal return of `v`.
* Parts of the program that are not in the translated sources (the identifier
  formatter `FmtFieldName`, the helper `stringifyFirstChar`, the case table of
  the Go standard library above U+00FF) are the fields of `Externals`; the
  theorems are stated for an arbitrary value of it.
* For the statements about the formatter itself, `FmtFieldName` is modelled
  from the specification's description of it, with the tables
  `commonInitialisms` and `intToWordMap` of `meta.go`.
-/

namespace Dbmeta

/-! ## Data model -/

/-- The record `ModelInfo` of `meta.go`. -/
structure ModelInfo where
  PackageName : String
  StructName : String
  ShortStructName : String
  TableName : String
  Fields : List String
  deriving DecidableEq

/-- What the code reads from one `*sql.ColumnType`: the results of `c.Name()`,
`c.DatabaseTypeName()` and the first result of `c.Nullable()`. -/
structure ColumnType where
  Name : String
  DatabaseTypeName : String
  Nullable : Bool
  deriving DecidableEq

/-- The functions `generateFieldsTypes` calls that are not defined in the
translated sources, and the part of the standard library's case table the
embedding does not write out. -/
structure Externals where
  /-- The function `FmtFieldName` (identifier formatter). -/
  FmtFieldName : String → String
  /-- The function `stringifyFirstChar`. -/
  stringifyFirstChar : String → String
  /-- Go's `unicode.ToLower` on the runes above U+00FF. -/
  toLowerAbove : Char → Char

/-! ## Go standard library -/

/-- The `LowerCase` column of `unicode.CaseRanges` for the runes up to U+00FF:
the ranges `0041-005A`, `00C0-00D6` and `00D8-00DE` have delta `+32`, every
other rune of that block maps to itself. -/
def toLowerLatin1 (r : Nat) : Nat :=
  if (0x41 ≤ r ∧ r ≤ 0x5A) ∨ (0xC0 ≤ r ∧ r ≤ 0xD6) ∨ (0xD8 ≤ r ∧ r ≤ 0xDE) then r + 32
  else r

/-- Go's `unicode.ToLower`: the ASCII fast path, then the case table. -/
def unicodeToLower (x : Externals) (r : Char) : Char :=
  if r.toNat ≤ 0x7F then
    if 0x41 ≤ r.toNat ∧ r.toNat ≤ 0x5A then Char.ofNat (r.toNat + 32) else r
  else if r.toNat ≤ 0xFF then Char.ofNat (toLowerLatin1 r.toNat)
  else x.toLowerAbove r

/-- Go's `strings.ToLower` on valid UTF-8 text: every character is replaced by
its `unicode.ToLower`. -/
def stringsToLower (x : Externals) (s : String) : String :=
  String.mk (s.data.map (unicodeToLower x))

/-- Go's `strings.Join(elems, sep)`. -/
def stringsJoin : List String → String → String
  | [], _ => ""
  | [a], _ => a
  | a :: b :: rest, sep => a ++ sep ++ stringsJoin (b :: rest) sep

/-! ## `sqlTypeToGoType` -/

/-- The function `sqlTypeToGoType` of `meta.go`: a `switch` on the type name;
the `default` case panics. The `return ""` after the `switch` cannot be
reached and has no counterpart here. -/
def sqlTypeToGoType (mysqlType : String) (nullable : Bool) : Except String String :=
  match mysqlType with
  | "tinyint" => if nullable then .ok "*int8" else .ok "int8"
  | "int" => if nullable then .ok "*int32" else .ok "int32"
  | "bigint" => if nullable then .ok "*int64" else .ok "int64"
  | "char" | "enum" | "varchar" | "longtext" | "mediumtext" | "text" | "tinytext" =>
    if nullable then .ok "*string" else .ok "string"
  | "date" | "datetime" | "time" | "timestamp" =>
    if nullable then .ok "*time.Time" else .ok "time.Time"
  | "decimal" | "double" => if nullable then .ok "*float64" else .ok "float64"
  | "float" => if nullable then .ok "*float32" else .ok "float32"
  | "binary" | "blob" | "longblob" | "mediumblob" | "varbinary" => .ok "[]byte"
  | _ => .error ("unsupported mysql type " ++ mysqlType)

/-- The `case` labels of `sqlTypeToGoType` whose branch depends on `nullable`. -/
def scalarTypes : List String :=
  ["tinyint", "int", "bigint", "char", "enum", "varchar", "longtext", "mediumtext",
   "text", "tinytext", "date", "datetime", "time", "timestamp", "decimal", "double",
   "float"]

/-- The `case` labels of the last branch of `sqlTypeToGoType`. -/
def byteTypes : List String :=
  ["binary", "blob", "longblob", "mediumblob", "varbinary"]

/-- All `case` labels of `sqlTypeToGoType`. -/
def mappedTypes : List String := scalarTypes ++ byteTypes

/-- The results of `sqlTypeToGoType` for `nullable = false` on `scalarTypes`. -/
def baseTypes : List String :=
  ["int8", "int32", "int64", "string", "time.Time", "float64", "float32"]

/-- Whether `generateFieldsTypes` finds a type for the column: the lower-cased
database type name is a `case` label of `sqlTypeToGoType`. -/
def supported (x : Externals) (c : ColumnType) : Prop :=
  stringsToLower x c.DatabaseTypeName ∈ mappedTypes

instance (x : Externals) (c : ColumnType) : Decidable (supported x c) := by
  unfold supported; infer_instance

/-! ## `generateFieldsTypes` -/

/-- Lines 99-123 of `meta.go`, the body of the loop of `generateFieldsTypes`
after the type lookup: the declaration of the column `key` at index `i` of the
column list, whose Go type is `valueType`. `fmt.Sprintf` with `%s` verbs is
string concatenation. -/
def fieldDeclaration (x : Externals) ( jsonAnnotation gormAnnotation : Bool) (i : Nat)
    (key valueType : String) : String :=
  let fieldName := x.FmtFieldName (x.stringifyFirstChar key)
  let annotations : List String := []
  let annotations :=
    if gormAnnotation = true then
      if i = 0 then annotations ++ ["gorm:\"column:" ++ key ++ ";primary_key\""]
      else annotations ++ ["gorm:\"column:" ++ key ++ "\""]
    else annotations
  let annotations :=
    if jsonAnnotation = true then annotations ++ ["json:\"" ++ key ++ "\""]
    else annotations
  if annotations.length > 0 then
    fieldName ++ " " ++ valueType ++ " `" ++ stringsJoin annotations " " ++ "`"
  else
    fieldName ++ " " ++ valueType

/-- The `for i, c := range columns` loop of `generateFieldsTypes`, from index
`i` on, with the declarations collected so far in `fields`. A panic of
`sqlTypeToGoType` ends the loop and the function. -/
def generateFieldsLoop (x : Externals) ( jsonAnnotation gormAnnotation : Bool) :
    Nat → List ColumnType → List String → Except String (List String)
  | _, [], fields => .ok fields
  | i, c :: rest, fields =>
    match sqlTypeToGoType (stringsToLower x c.DatabaseTypeName) c.Nullable with
    | .error msg => .error msg
    | .ok valueType =>
      if valueType = "" then
        generateFieldsLoop x jsonAnnotation gormAnnotation (i + 1) rest fields
      else
        generateFieldsLoop x jsonAnnotation gormAnnotation (i + 1) rest
          (fields ++ [fieldDeclaration x jsonAnnotation gormAnnotation i c.Name valueType])

/-- The function `generateFieldsTypes` of `meta.go`. The argument `db` is not
used by the code and is left out; `depth` is not used either, and is kept. -/
def generateFieldsTypes (x : Externals) (columns : List ColumnType) (_depth : Int)
    ( jsonAnnotation gormAnnotation : Bool) : Except String (List String) :=
  generateFieldsLoop x jsonAnnotation gormAnnotation 0 columns []

/-! ## `GenerateStruct` -/

/-- The bytes of a Go string: the UTF-8 encoding of its characters. -/
def stringBytes (s : String) : List UInt8 :=
  s.data.flatMap String.utf8EncodeChar

/-- Go's index expression `s[i]` on a string: the byte at `i`, or the run-time
panic when `i` is not below the number of bytes. -/
def stringIndex (s : String) (i : Nat) : Except String Nat :=
  match (stringBytes s)[i]? with
  | some b => .ok b.toNat
  | none =>
    .error ("runtime error: index out of range [" ++ toString i ++ "] with length " ++
      toString (stringBytes s).length)

/-- Go's conversion `string(b)` of a byte: the text of the one character whose
code point is the value of the byte. -/
def stringOfByte (b : Nat) : String :=
  String.singleton (Char.ofNat b)

/-- The function `GenerateStruct` of `meta.go`. The database is the function
`db` from a table name to the columns `schema.Table` returns for it (the error
result of `schema.Table` is discarded by the code). The fields are generated
first, then the record is built, which indexes `structName`. -/
def GenerateStruct (x : Externals) (db : String → List ColumnType) (tableName : String)
    (structName : String) (pkgName : String) ( jsonAnnotation : Bool) ( gormAnnotation : Bool) :
    Except String ModelInfo := do
  let cols := db tableName
  let fields ← generateFieldsTypes x cols 0 jsonAnnotation gormAnnotation
  let b ← stringIndex structName 0
  pure { PackageName := pkgName
         StructName := structName
         TableName := tableName
         ShortStructName := stringsToLower x (stringOfByte b)
         Fields := fields }

/-- A value of `Externals` to evaluate the definitions with: both formatter
functions return their argument, and no rune above U+00FF is changed. -/
def plainExternals : Externals :=
  { FmtFieldName := fun s => s, stringifyFirstChar := fun s => s, toLowerAbove := fun r => r }

/-- The short alias as the specification words it: the lower-cased first
character of `structName`. -/
def shortAliasSpec (x : Externals) (structName : String) : String :=
  stringsToLower x (String.mk (structName.data.take 1))

/-- The columns of the specification's first end-to-end scenario. -/
def scenarioOneColumns : List ColumnType :=
  [{ Name := "id", DatabaseTypeName := "int", Nullable := false },
   { Name := "api_key", DatabaseTypeName := "varchar", Nullable := true }]

/-- A column list with a column of the unmapped type `uuid` in the middle. -/
def uuidColumns : List ColumnType :=
  [{ Name := "id", DatabaseTypeName := "int", Nullable := false },
   { Name := "token", DatabaseTypeName := "uuid", Nullable := false },
   { Name := "name", DatabaseTypeName := "varchar", Nullable := true }]

/-- The fifteen strings `sqlTypeToGoType` can return. -/
def targetTypes : List String :=
  ["int8", "*int8", "int32", "*int32", "int64", "*int64", "string", "*string",
   "time.Time", "*time.Time", "float64", "*float64", "float32", "*float32", "[]byte"]

/-- The category table as the specification words it: each database type name
with the target type it has on non-nullable input. -/
def categoryTable : List (String × String) :=
  [("tinyint", "int8"), ("int", "int32"), ("bigint", "int64"),
   ("char", "string"), ("enum", "string"), ("varchar", "string"), ("longtext", "string"),
   ("mediumtext", "string"), ("text", "string"), ("tinytext", "string"),
   ("date", "time.Time"), ("datetime", "time.Time"), ("time", "time.Time"),
   ("timestamp", "time.Time"),
   ("decimal", "float64"), ("double", "float64"), ("float", "float32"),
   ("binary", "[]byte"), ("blob", "[]byte"), ("longblob", "[]byte"),
   ("mediumblob", "[]byte"), ("varbinary", "[]byte")]

/-- Two columns that `generateFieldsTypes` cannot tell apart: same name, same
nullability, and database type names with the same lower-casing. -/
def sameUpToTypeCase (x : Externals) (c d : ColumnType) : Prop :=
  c.Name = d.Name ∧ c.Nullable = d.Nullable ∧
    stringsToLower x c.DatabaseTypeName = stringsToLower x d.DatabaseTypeName

/-! ## The identifier formatter -/

/-- The keys of the map `commonInitialisms` of `meta.go` (every key has the
value `true`). -/
def commonInitialisms : List String :=
  ["API", "ASCII", "CPU", "CSS", "DNS", "EOF", "GUID", "HTML", "HTTP", "HTTPS", "ID", "IP",
   "JSON", "LHS", "QPS", "RAM", "RHS", "RPC", "SLA", "SMTP", "SSH", "TLS", "TTL", "UI",
   "UID", "UUID", "URI", "URL", "UTF8", "VM", "XML"]

/-- The table `intToWordMap` of `meta.go`. -/
def intToWordMap : List String :=
  ["zero", "one", "two", "three", "four", "five", "six", "seven", "eight", "nine"]

/-- Modelled from the spec: the digit test of the identifier formatter
`FmtFieldName`, which is not in the translated sources; a digit is one of the
characters `0` to `9`. -/
def isDigitChar (c : Char) : Bool :=
  decide (48 ≤ c.toNat ∧ c.toNat ≤ 57)

/-- Modelled from the spec: the alphanumeric test of the identifier formatter
`FmtFieldName`, which is not in the translated sources; every other character
is a separator. Alphanumeric is read as an ASCII letter or digit. -/
def isAlphanumeric (c : Char) : Bool :=
  decide ((48 ≤ c.toNat ∧ c.toNat ≤ 57) ∨ (65 ≤ c.toNat ∧ c.toNat ≤ 90) ∨
    (97 ≤ c.toNat ∧ c.toNat ≤ 122))

/-- Modelled from the spec: upper-casing of one character of a word segment in
the identifier formatter `FmtFieldName`, which is not in the translated
sources; a segment holds ASCII letters and digits only. -/
def upperChar (c : Char) : Char :=
  if 97 ≤ c.toNat ∧ c.toNat ≤ 122 then Char.ofNat (c.toNat - 32) else c

/-- Modelled from the spec: the word segments of a raw identifier in the
formatter `FmtFieldName`, which is not in the translated sources. The raw name
is split on non-alphanumeric separators; separators before the first word give
no segment, and a digit that begins the first word is a segment of its own, so
that the identifier never begins with a digit. -/
def wordSegments (raw : List Char) : List (List Char) :=
  match raw.dropWhile (fun c => !isAlphanumeric c) with
  | d :: rest =>
    if isDigitChar d then [d] :: rest.splitOnP (fun c => !isAlphanumeric c)
    else (d :: rest).splitOnP (fun c => !isAlphanumeric c)
  | [] => []

/-- Modelled from the spec: the numeral-to-word substitution of the formatter
`FmtFieldName`, which is not in the translated sources. A standalone digit
segment is replaced by its word of `intToWordMap`; a digit inside a longer
segment is left alone. -/
def spellDigit (seg : List Char) : List Char :=
  match seg with
  | [d] => if isDigitChar d then (intToWordMap.getD (d.toNat - 48) "").data else seg
  | _ => seg

/-- Modelled from the spec: the casing of one word segment in the formatter
`FmtFieldName`, which is not in the translated sources. A segment that is an
initialism, ignoring case, is written in upper case; any other segment gets
its first character upper-cased, the rest unchanged. -/
def caseSegment (seg : List Char) : List Char :=
  if String.mk (seg.map upperChar) ∈ commonInitialisms then seg.map upperChar
  else
    match seg with
    | [] => []
    | c :: cs => upperChar c :: cs

/-- Modelled from the spec: the rendering of one word segment in the formatter
`FmtFieldName`, which is not in the translated sources: the digit is spelled
out first, then the segment is cased. -/
def formatSegment (seg : List Char) : List Char :=
  caseSegment (spellDigit seg)

/-- Modelled from the spec: the identifier formatter `FmtFieldName` (the
specification's `format`), which is not in the translated sources: the
rendered word segments of the raw name, concatenated with no separator. -/
def FmtFieldName (raw : String) : String :=
  String.mk ((wordSegments raw.data).map formatSegment).flatten

end Dbmeta

/-! ## Package `main` -/

namespace Main

open Dbmeta

/-- Lines 96-97 of `main.go`: the struct name of a table. The function
`inflection.Singular` of the external library is the argument `singular`. -/
def structName (singular : String → String) (tableName : String) : String :=
  let structName := FmtFieldName tableName
  singular structName

/-- Go's `strings.Split(s, "")` on valid UTF-8 text: one string per character. -/
def stringsSplitChars (s : String) : List String :=
  s.data.map String.singleton

/-- The function `camelToLowerCamel` of `main.go`. Indexing `ss[0]` panics when
the slice is empty. -/
def camelToLowerCamel (x : Externals) (s : String) : Except String String :=
  let ss := stringsSplitChars s
  match ss[0]? with
  | none =>
    .error ("runtime error: index out of range [0] with length " ++ toString ss.length)
  | some first =>
    let ss := ss.set 0 (stringsToLower x first)
    .ok (stringsJoin ss "")

/-- A stand-in for `inflection.Singular` to evaluate `structName` with: a final
`s` is dropped. -/
def dropFinalS (s : String) : String :=
  match s.data.reverse with
  | 's' :: rest => String.mk rest.reverse
  | _ => s

end Main

namespace Dbmeta

theorem sqlTypeToGoType_unmapped (t : String) (n : Bool) (ht : t ∉ mappedTypes) :
    sqlTypeToGoType t n = .error ("unsupported mysql type " ++ t) := by
  simp only [mappedTypes, scalarTypes, byteTypes, List.cons_append, List.nil_append,
    List.mem_cons, List.mem_singleton, List.not_mem_nil, or_false, not_or] at ht
  unfold sqlTypeToGoType
  split <;> simp_all

end Dbmeta

namespace Dbmeta

/-! ## Lemmas on the loop -/

theorem sqlTypeToGoType_mapped (t : String) (n : Bool) (ht : t ∈ mappedTypes) :
    ∃ ty, ty ≠ "" ∧ sqlTypeToGoType t n = .ok ty := by
  simp only [mappedTypes, scalarTypes, byteTypes, List.cons_append, List.nil_append,
    List.mem_cons, List.mem_singleton, List.not_mem_nil, or_false] at ht
  cases n <;>
  rcases ht with h | h | h | h | h | h | h | h | h | h | h | h | h | h | h | h | h | h | h
    | h | h | h <;>
    subst h <;> refine ⟨_, ?_, rfl⟩ <;> decide

theorem generateFieldsLoop_supported (x : Externals) (j g : Bool) (cols : List ColumnType) :
    ∀ (i : Nat) (acc : List String), (∀ c ∈ cols, supported x c) →
      ∃ out, generateFieldsLoop x j g i cols acc = .ok (acc ++ out) ∧
        out.length = cols.length ∧
        ∀ (k : Nat) (c : ColumnType), cols[k]? = some c →
          ∃ ty, sqlTypeToGoType (stringsToLower x c.DatabaseTypeName) c.Nullable = .ok ty ∧
            out[k]? = some (fieldDeclaration x j g (i + k) c.Name ty) := by
  induction cols with
  | nil =>
    intro i acc _
    exact ⟨[], by simp [generateFieldsLoop], rfl, by simp⟩
  | cons c rest ih =>
    intro i acc hall
    have hc : supported x c := hall c (List.mem_cons_self _ _)
    obtain ⟨ty, hne, hty⟩ := sqlTypeToGoType_mapped _ c.Nullable hc
    obtain ⟨out, hout, hlen, hk⟩ :=
      ih (i + 1) (acc ++ [fieldDeclaration x j g i c.Name ty])
        (fun d hd => hall d (List.mem_cons_of_mem _ hd))
    refine ⟨fieldDeclaration x j g i c.Name ty :: out, ?_, by simp [hlen], ?_⟩
    · simp only [generateFieldsLoop, hty, if_neg hne, hout]
      simp
    · intro k d hd
      cases k with
      | zero =>
        simp only [List.getElem?_cons_zero, Option.some.injEq] at hd
        subst hd
        exact ⟨ty, hty, by simp⟩
      | succ k =>
        simp only [List.getElem?_cons_succ] at hd
        obtain ⟨ty', h1, h2⟩ := hk k d hd
        refine ⟨ty', h1, ?_⟩
        simp only [List.getElem?_cons_succ, h2]
        congr 2
        omega

theorem generateFieldsLoop_unsupported (x : Externals) (j g : Bool) (pre : List ColumnType) :
    ∀ (i : Nat) (acc : List String) (c : ColumnType) (post : List ColumnType),
      (∀ p ∈ pre, supported x p) → ¬ supported x c →
      generateFieldsLoop x j g i (pre ++ c :: post) acc =
        .error ("unsupported mysql type " ++ stringsToLower x c.DatabaseTypeName) := by
  induction pre with
  | nil =>
    intro i acc c post _ hc
    simp only [List.nil_append, generateFieldsLoop, sqlTypeToGoType_unmapped _ c.Nullable hc]
  | cons p pre ih =>
    intro i acc c post hall hc
    obtain ⟨ty, hne, hty⟩ :=
      sqlTypeToGoType_mapped _ p.Nullable (hall p (List.mem_cons_self _ _))
    simp only [List.cons_append, generateFieldsLoop, hty, if_neg hne]
    exact ih _ _ c post (fun d hd => hall d (List.mem_cons_of_mem _ hd)) hc

theorem generateFieldsTypes_supported (x : Externals) (cols : List ColumnType) (d : Int)
    (j g : Bool) (hall : ∀ c ∈ cols, supported x c) :
    ∃ out, generateFieldsTypes x cols d j g = .ok out ∧ out.length = cols.length ∧
      ∀ (k : Nat) (c : ColumnType), cols[k]? = some c →
        ∃ ty, sqlTypeToGoType (stringsToLower x c.DatabaseTypeName) c.Nullable = .ok ty ∧
          out[k]? = some (fieldDeclaration x j g k c.Name ty) := by
  obtain ⟨out, h1, h2, h3⟩ := generateFieldsLoop_supported x j g cols 0 [] hall
  refine ⟨out, by simpa [generateFieldsTypes] using h1, h2, ?_⟩
  intro k c hk
  obtain ⟨ty, h4, h5⟩ := h3 k c hk
  exact ⟨ty, h4, by simpa using h5⟩

/-! ## Lemmas on lower-casing -/

theorem toNat_ofNat_of_lt (n : Nat) (h : n < 0xD800) : (Char.ofNat n).toNat = n := by
  have hv : n.isValidChar := Or.inl h
  simp [Char.ofNat, hv, Char.ofNatAux, Char.toNat, UInt32.toNat]

theorem unicodeToLower_ofNat (x : Externals) (n : Nat) (h : n < 256) :
    unicodeToLower x (Char.ofNat n) = Char.ofNat (toLowerLatin1 n) := by
  have hn : (Char.ofNat n).toNat = n := toNat_ofNat_of_lt n (by omega)
  unfold unicodeToLower toLowerLatin1
  rw [hn]
  split_ifs <;> first | rfl | omega

theorem toLowerLatin1_idem (n : Nat) (h : n < 256) :
    toLowerLatin1 n < 256 ∧ toLowerLatin1 (toLowerLatin1 n) = toLowerLatin1 n := by
  unfold toLowerLatin1
  split_ifs <;> omega

theorem stringsToLower_stringOfByte (x : Externals) (n : Nat) (h : n < 256) :
    stringsToLower x (stringOfByte n) = String.singleton (Char.ofNat (toLowerLatin1 n)) := by
  simp [stringsToLower, stringOfByte, String.singleton, unicodeToLower_ofNat x n h]
  rfl

theorem stringIndex_zero (s : String) (hne : s ≠ "") :
    ∃ b, b < 256 ∧ stringIndex s 0 = .ok b := by
  obtain ⟨l⟩ := s
  cases l with
  | nil => exact absurd rfl hne
  | cons c cs =>
    have hb : ∃ b bs, String.utf8EncodeChar c = b :: bs := by
      unfold String.utf8EncodeChar
      simp only
      split_ifs <;> exact ⟨_, _, rfl⟩
    obtain ⟨b, bs, hb⟩ := hb
    refine ⟨b.toNat, UInt8.toNat_lt b, ?_⟩
    simp [stringIndex, stringBytes, hb]

/-! ## The shape of one declaration -/

theorem fieldDeclaration_gorm (x : Externals) (j : Bool) (i : Nat) (key ty : String) :
    fieldDeclaration x j true i key ty =
      x.FmtFieldName (x.stringifyFirstChar key) ++ " " ++ ty ++ " `" ++
        (if i = 0 then "gorm:\"column:" ++ key ++ ";primary_key\""
          else "gorm:\"column:" ++ key ++ "\"") ++
        (if j = true then " " ++ ("json:\"" ++ key ++ "\"") else "") ++ "`" := by
  cases j <;> by_cases hi : i = 0 <;>
    simp [fieldDeclaration, stringsJoin, String.append_assoc, hi, -String.reduceAppend]

theorem fieldDeclaration_json_only (x : Externals) (i : Nat) (key ty : String) :
    fieldDeclaration x true false i key ty =
      x.FmtFieldName (x.stringifyFirstChar key) ++ " " ++ ty ++ " `" ++
        ("json:\"" ++ key ++ "\"") ++ "`" := by
  simp [fieldDeclaration, stringsJoin, String.append_assoc, -String.reduceAppend]

theorem fieldDeclaration_plain (x : Externals) (i : Nat) (key ty : String) :
    fieldDeclaration x false false i key ty =
      x.FmtFieldName (x.stringifyFirstChar key) ++ " " ++ ty := by
  simp [fieldDeclaration]

theorem gorm_tags_differ (key : String) :
    "gorm:\"column:" ++ key ++ ";primary_key\"" ≠ "gorm:\"column:" ++ key ++ "\"" := by
  intro h
  have hl := congrArg String.length h
  simp only [String.length_append] at hl
  have h1 : (";primary_key\"").length = 13 := rfl
  have h2 : ("\"").length = 1 := rfl
  omega

/-! ## The type mapper -/

/-- C1: for each of the seventeen type names whose branch looks at `nullable`,
`sqlTypeToGoType t false` returns an unwrapped base type and
`sqlTypeToGoType t true` returns `*` followed by that same base type. -/
theorem sqlTypeToGoType_nullable_is_star_base (t : String) (ht : t ∈ scalarTypes) :
    ∃ base, base ∈ baseTypes ∧ sqlTypeToGoType t false = .ok base ∧
      sqlTypeToGoType t true = .ok ("*" ++ base) := by
  simp only [scalarTypes, List.mem_cons, List.mem_singleton, List.not_mem_nil, or_false] at ht
  rcases ht with h | h | h | h | h | h | h | h | h | h | h | h | h | h | h | h | h <;>
    subst h <;> refine ⟨_, ?_, rfl, rfl⟩ <;> decide

theorem sqlTypeToGoType_nullable_is_star_base_witness :
    "varchar" ∈ scalarTypes ∧
      ∃ base, base ∈ baseTypes ∧ sqlTypeToGoType "varchar" false = .ok base ∧
        sqlTypeToGoType "varchar" true = .ok ("*" ++ base) :=
  ⟨by decide, sqlTypeToGoType_nullable_is_star_base "varchar" (by decide)⟩

/-- C2, as the claim states it, fails: on the unmapped name `uuid` the mapper
panics for both values of `nullable`; it does not return the empty string. -/
theorem sqlTypeToGoType_uuid_panics :
    sqlTypeToGoType "uuid" false = .error "unsupported mysql type uuid" ∧
      sqlTypeToGoType "uuid" true = .error "unsupported mysql type uuid" ∧
      sqlTypeToGoType "uuid" false ≠ .ok "" ∧ sqlTypeToGoType "uuid" true ≠ .ok "" := by
  refine ⟨rfl, rfl, ?_, ?_⟩ <;> intro h <;> cases h

/-- C2, amended: for every type name that is not a `case` label and either
value of `nullable`, `sqlTypeToGoType` returns nothing: it panics with the
message `unsupported mysql type ` followed by the name. -/
theorem sqlTypeToGoType_unmapped_panics (t : String) (n : Bool) (ht : t ∉ mappedTypes) :
    sqlTypeToGoType t n = .error ("unsupported mysql type " ++ t) :=
  sqlTypeToGoType_unmapped t n ht

theorem sqlTypeToGoType_unmapped_panics_witness :
    "int(11)" ∉ mappedTypes ∧
      sqlTypeToGoType "int(11)" true = .error ("unsupported mysql type " ++ "int(11)") :=
  ⟨by decide, sqlTypeToGoType_unmapped_panics "int(11)" true (by decide)⟩

/-- C7: for each of the five raw byte sequence type names `sqlTypeToGoType`
returns `[]byte`, whatever `nullable` is. -/
theorem sqlTypeToGoType_bytes_ignore_nullable (t : String) (n : Bool) (ht : t ∈ byteTypes) :
    sqlTypeToGoType t n = .ok "[]byte" := by
  simp only [byteTypes, List.mem_cons, List.mem_singleton, List.not_mem_nil, or_false] at ht
  rcases ht with h | h | h | h | h <;> subst h <;> rfl

theorem sqlTypeToGoType_bytes_ignore_nullable_witness :
    "blob" ∈ byteTypes ∧ sqlTypeToGoType "blob" true = .ok "[]byte" :=
  ⟨by decide, sqlTypeToGoType_bytes_ignore_nullable "blob" true (by decide)⟩

/-! ## The field assembler -/

/-- C3, as the claim states it, fails: with a `uuid` column in the list,
`generateFieldsTypes` returns no declarations at all, whatever the formatter
is; it panics at that column, and the column after it is never reached. -/
theorem generateFieldsTypes_uuid_column_aborts :
    (¬ ∃ x out, generateFieldsTypes x uuidColumns 0 true true = .ok out) ∧
      generateFieldsTypes plainExternals uuidColumns 0 true true =
        .error "unsupported mysql type uuid" := by
  refine ⟨?_, rfl⟩
  rintro ⟨x, out, h⟩
  have h2 : generateFieldsTypes x uuidColumns 0 true true =
      .error "unsupported mysql type uuid" := rfl
  rw [h2] at h
  cases h

/-- C3, amended: when every column has a supported type, `generateFieldsTypes`
returns one declaration per column, the `k`-th built from the `k`-th column;
when some column has an unsupported type, it returns nothing and panics with
`unsupported mysql type ` and the lower-cased type name of the first such
column. -/
theorem generateFieldsTypes_supported_or_panic (x : Externals) (cols : List ColumnType)
    (j g : Bool) :
    ((∀ c ∈ cols, supported x c) →
      ∃ out, generateFieldsTypes x cols 0 j g = .ok out ∧ out.length = cols.length ∧
        ∀ (k : Nat) (c : ColumnType), cols[k]? = some c →
          ∃ ty, sqlTypeToGoType (stringsToLower x c.DatabaseTypeName) c.Nullable = .ok ty ∧
            out[k]? = some (fieldDeclaration x j g k c.Name ty)) ∧
    (∀ pre c post, cols = pre ++ c :: post → (∀ p ∈ pre, supported x p) → ¬ supported x c →
      generateFieldsTypes x cols 0 j g =
        .error ("unsupported mysql type " ++ stringsToLower x c.DatabaseTypeName)) := by
  refine ⟨generateFieldsTypes_supported x cols 0 j g, ?_⟩
  intro pre c post hcols hpre hc
  subst hcols
  exact generateFieldsLoop_unsupported x j g pre 0 [] c post hpre hc

theorem generateFieldsTypes_supported_or_panic_witness :
    (∀ c ∈ scenarioOneColumns, supported plainExternals c) ∧
      ∃ out, generateFieldsTypes plainExternals scenarioOneColumns 0 false false = .ok out ∧
        out.length = scenarioOneColumns.length ∧
        ∀ (k : Nat) (c : ColumnType), scenarioOneColumns[k]? = some c →
          ∃ ty, sqlTypeToGoType (stringsToLower plainExternals c.DatabaseTypeName)
              c.Nullable = .ok ty ∧
            out[k]? = some (fieldDeclaration plainExternals false false k c.Name ty) :=
  ⟨by decide,
    (generateFieldsTypes_supported_or_panic plainExternals scenarioOneColumns false false).1
      (by decide)⟩

theorem scenarioOne_fields (x : Externals) :
    generateFieldsTypes x scenarioOneColumns 0 true true =
      .ok [x.FmtFieldName (x.stringifyFirstChar "id") ++
            " int32 `gorm:\"column:id;primary_key\" json:\"id\"`",
           x.FmtFieldName (x.stringifyFirstChar "api_key") ++
            " *string `gorm:\"column:api_key\" json:\"api_key\"`"] := by
  have e1 : stringsToLower x "int" = "int" := rfl
  have e2 : stringsToLower x "varchar" = "varchar" := rfl
  have t1 : sqlTypeToGoType "int" false = .ok "int32" := rfl
  have t2 : sqlTypeToGoType "varchar" true = .ok "*string" := rfl
  simp only [generateFieldsTypes, scenarioOneColumns, generateFieldsLoop, e1, e2, t1, t2]
  simp [fieldDeclaration, stringsJoin, String.append_assoc]

/-- C4, as the claim states it, fails: whatever the identifier formatter
returns, the declarations of scenario 1 are not the ones written with the
annotation key `orm`. -/
theorem scenarioOne_not_orm_key :
    ¬ ∃ x, generateFieldsTypes x scenarioOneColumns 0 true true =
      .ok ["Id int32 `orm:\"column:id;primary_key\" json:\"id\"`",
           "ApiKey *string `orm:\"column:api_key\" json:\"api_key\"`"] := by
  rintro ⟨x, h⟩
  rw [scenarioOne_fields x] at h
  injection h with h
  injection h with h _
  have hs : (" int32 `gorm:\"column:id;primary_key\" json:\"id\"`").data <:+
      ("Id int32 `orm:\"column:id;primary_key\" json:\"id\"`").data :=
    ⟨(x.FmtFieldName (x.stringifyFirstChar "id")).data, by rw [← String.data_append, h]⟩
  revert hs
  decide

/-- C4, amended: for the columns `(id, int, not null)`, `(api_key, varchar,
nullable)` with both annotations enabled, `generateFieldsTypes` returns exactly
two declarations, the formatted identifier of `id` followed by
`int32` and the tag with `gorm:"column:id;primary_key" json:"id"`, and the
formatted identifier of `api_key` followed by `*string` and the tag with
`gorm:"column:api_key" json:"api_key"`: the key of the persistence annotation
is `gorm`. -/
theorem scenarioOne_gorm_key (x : Externals) :
    generateFieldsTypes x scenarioOneColumns 0 true true =
      .ok [x.FmtFieldName (x.stringifyFirstChar "id") ++
            " int32 `gorm:\"column:id;primary_key\" json:\"id\"`",
           x.FmtFieldName (x.stringifyFirstChar "api_key") ++
            " *string `gorm:\"column:api_key\" json:\"api_key\"`"] :=
  scenarioOne_fields x

/-! ## The model builder -/

/-- C5 fails on the code at a struct name whose first character is not ASCII:
for `Élan`, `GenerateStruct` stores `ã` (the first byte `0xC3` of the UTF-8
encoding of `É`, read as a character and lower-cased), while the lower-cased
first character is `é`. -/
theorem GenerateStruct_short_name_from_first_byte (x : Externals) :
    ∃ m, GenerateStruct x (fun _ => []) "elans" "Élan" "model" true true = .ok m ∧
      m.ShortStructName = "ã" ∧ shortAliasSpec x "Élan" = "é" ∧
      m.ShortStructName ≠ shortAliasSpec x "Élan" :=
  ⟨{ PackageName := "model", StructName := "Élan", ShortStructName := "ã",
     TableName := "elans", Fields := [] },
    rfl, rfl, rfl, by show "ã" ≠ "é"; decide⟩

/-- C6: for every non-empty `structName`, whenever the fields of the table are
generated, `GenerateStruct` returns a model whose `ShortStructName` has
exactly one character and is unchanged by lower-casing. -/
theorem GenerateStruct_short_name_one_lower_char (x : Externals)
    (db : String → List ColumnType) (tableName structName pkgName : String) (j g : Bool)
    (fields : List String) (hne : structName ≠ "")
    (hf : generateFieldsTypes x (db tableName) 0 j g = .ok fields) :
    ∃ m, GenerateStruct x db tableName structName pkgName j g = .ok m ∧
      m.ShortStructName.length = 1 ∧
      stringsToLower x m.ShortStructName = m.ShortStructName := by
  obtain ⟨b, hb, hidx⟩ := stringIndex_zero structName hne
  obtain ⟨hlt, hidem⟩ := toLowerLatin1_idem b hb
  have hG : GenerateStruct x db tableName structName pkgName j g =
      .ok { PackageName := pkgName, StructName := structName, TableName := tableName,
            ShortStructName := stringsToLower x (stringOfByte b), Fields := fields } := by
    simp only [GenerateStruct, hf, hidx, bind, Except.bind, pure, Except.pure]
  refine ⟨_, hG, ?_, ?_⟩
  · simp only [stringsToLower_stringOfByte x b hb]
    rfl
  · simp only [stringsToLower_stringOfByte x b hb]
    have := stringsToLower_stringOfByte x (toLowerLatin1 b) hlt
    rw [hidem] at this
    exact this

theorem GenerateStruct_short_name_one_lower_char_witness :
    "User" ≠ "" ∧
      ∃ m, GenerateStruct plainExternals (fun _ => scenarioOneColumns) "users" "User" "model"
          true true = .ok m ∧
        m.ShortStructName.length = 1 ∧
        stringsToLower plainExternals m.ShortStructName = m.ShortStructName :=
  ⟨by decide,
    GenerateStruct_short_name_one_lower_char plainExternals (fun _ => scenarioOneColumns)
      "users" "User" "model" true true _ (by decide) rfl⟩

/-! ## Annotations -/

/-- C8: with the persistence annotation enabled and every column of a
supported type, the declaration of the column at index `k` of the column list
carries `gorm:"column:<name>;primary_key"` when `k = 0` and
`gorm:"column:<name>"` otherwise, `<name>` being the raw column name; the two
tags differ, so the marker is there exactly at index 0. -/
theorem generateFieldsTypes_primary_key_at_index_zero (x : Externals)
    (cols : List ColumnType) (j : Bool) (hall : ∀ c ∈ cols, supported x c) :
    ∃ out, generateFieldsTypes x cols 0 j true = .ok out ∧ out.length = cols.length ∧
      ∀ (k : Nat) (c : ColumnType), cols[k]? = some c →
        ∃ ty, sqlTypeToGoType (stringsToLower x c.DatabaseTypeName) c.Nullable = .ok ty ∧
          out[k]? = some (x.FmtFieldName (x.stringifyFirstChar c.Name) ++ " " ++ ty ++ " `" ++
            (if k = 0 then "gorm:\"column:" ++ c.Name ++ ";primary_key\""
              else "gorm:\"column:" ++ c.Name ++ "\"") ++
            (if j = true then " " ++ ("json:\"" ++ c.Name ++ "\"") else "") ++ "`") ∧
          "gorm:\"column:" ++ c.Name ++ ";primary_key\"" ≠ "gorm:\"column:" ++ c.Name ++ "\"" := by
  obtain ⟨out, h1, h2, h3⟩ := generateFieldsTypes_supported x cols 0 j true hall
  refine ⟨out, h1, h2, ?_⟩
  intro k c hk
  obtain ⟨ty, h4, h5⟩ := h3 k c hk
  rw [fieldDeclaration_gorm] at h5
  exact ⟨ty, h4, h5, gorm_tags_differ c.Name⟩

theorem generateFieldsTypes_primary_key_at_index_zero_witness :
    (∀ c ∈ scenarioOneColumns, supported plainExternals c) ∧
    ∃ out, generateFieldsTypes plainExternals scenarioOneColumns 0 false true = .ok out ∧
      out.length = scenarioOneColumns.length ∧
      ∀ (k : Nat) (c : ColumnType), scenarioOneColumns[k]? = some c →
        ∃ ty, sqlTypeToGoType (stringsToLower plainExternals c.DatabaseTypeName)
            c.Nullable = .ok ty ∧
          out[k]? = some (plainExternals.FmtFieldName
              (plainExternals.stringifyFirstChar c.Name) ++ " " ++ ty ++ " `" ++
            (if k = 0 then "gorm:\"column:" ++ c.Name ++ ";primary_key\""
              else "gorm:\"column:" ++ c.Name ++ "\"") ++
            (if false = true then " " ++ ("json:\"" ++ c.Name ++ "\"") else "") ++ "`") ∧
          "gorm:\"column:" ++ c.Name ++ ";primary_key\"" ≠ "gorm:\"column:" ++ c.Name ++ "\"" :=
  ⟨by decide,
    generateFieldsTypes_primary_key_at_index_zero plainExternals scenarioOneColumns false
      (by decide)⟩

/-- C9: with every column of a supported type, each declaration is the
identifier, a space, the type, a space and one pair of backticks around the
annotations: with both flags the `gorm` annotation, one space, then
`json:"<name>"`; with only the `gorm` flag the `gorm` annotation alone; with
only the `json` flag `json:"<name>"` alone. -/
theorem generateFieldsTypes_annotation_order (x : Externals) (cols : List ColumnType)
    (hall : ∀ c ∈ cols, supported x c) :
    (∃ out, generateFieldsTypes x cols 0 true true = .ok out ∧ out.length = cols.length ∧
      ∀ (k : Nat) (c : ColumnType), cols[k]? = some c →
        ∃ ty, sqlTypeToGoType (stringsToLower x c.DatabaseTypeName) c.Nullable = .ok ty ∧
          out[k]? = some (x.FmtFieldName (x.stringifyFirstChar c.Name) ++ " " ++ ty ++ " `" ++
            (if k = 0 then "gorm:\"column:" ++ c.Name ++ ";primary_key\""
              else "gorm:\"column:" ++ c.Name ++ "\"") ++
            " " ++ ("json:\"" ++ c.Name ++ "\"") ++ "`")) ∧
    (∃ out, generateFieldsTypes x cols 0 false true = .ok out ∧ out.length = cols.length ∧
      ∀ (k : Nat) (c : ColumnType), cols[k]? = some c →
        ∃ ty, sqlTypeToGoType (stringsToLower x c.DatabaseTypeName) c.Nullable = .ok ty ∧
          out[k]? = some (x.FmtFieldName (x.stringifyFirstChar c.Name) ++ " " ++ ty ++ " `" ++
            (if k = 0 then "gorm:\"column:" ++ c.Name ++ ";primary_key\""
              else "gorm:\"column:" ++ c.Name ++ "\"") ++ "`")) ∧
    (∃ out, generateFieldsTypes x cols 0 true false = .ok out ∧ out.length = cols.length ∧
      ∀ (k : Nat) (c : ColumnType), cols[k]? = some c →
        ∃ ty, sqlTypeToGoType (stringsToLower x c.DatabaseTypeName) c.Nullable = .ok ty ∧
          out[k]? = some (x.FmtFieldName (x.stringifyFirstChar c.Name) ++ " " ++ ty ++ " `" ++
            ("json:\"" ++ c.Name ++ "\"") ++ "`")) := by
  refine ⟨?_, ?_, ?_⟩
  · obtain ⟨out, h1, h2, h3⟩ := generateFieldsTypes_supported x cols 0 true true hall
    refine ⟨out, h1, h2, fun k c hk => ?_⟩
    obtain ⟨ty, h4, h5⟩ := h3 k c hk
    rw [fieldDeclaration_gorm] at h5
    exact ⟨ty, h4, by simpa [String.append_assoc, -String.reduceAppend] using h5⟩
  · obtain ⟨out, h1, h2, h3⟩ := generateFieldsTypes_supported x cols 0 false true hall
    refine ⟨out, h1, h2, fun k c hk => ?_⟩
    obtain ⟨ty, h4, h5⟩ := h3 k c hk
    rw [fieldDeclaration_gorm] at h5
    exact ⟨ty, h4, by simpa [String.append_assoc, -String.reduceAppend] using h5⟩
  · obtain ⟨out, h1, h2, h3⟩ := generateFieldsTypes_supported x cols 0 true false hall
    refine ⟨out, h1, h2, fun k c hk => ?_⟩
    obtain ⟨ty, h4, h5⟩ := h3 k c hk
    rw [fieldDeclaration_json_only] at h5
    exact ⟨ty, h4, h5⟩

theorem generateFieldsTypes_annotation_order_witness :
    (∀ c ∈ scenarioOneColumns, supported plainExternals c) ∧
    ∃ out, generateFieldsTypes plainExternals scenarioOneColumns 0 true true = .ok out ∧
      out.length = scenarioOneColumns.length ∧
      ∀ (k : Nat) (c : ColumnType), scenarioOneColumns[k]? = some c →
        ∃ ty, sqlTypeToGoType (stringsToLower plainExternals c.DatabaseTypeName)
            c.Nullable = .ok ty ∧
          out[k]? = some (plainExternals.FmtFieldName
              (plainExternals.stringifyFirstChar c.Name) ++ " " ++ ty ++ " `" ++
            (if k = 0 then "gorm:\"column:" ++ c.Name ++ ";primary_key\""
              else "gorm:\"column:" ++ c.Name ++ "\"") ++
            " " ++ ("json:\"" ++ c.Name ++ "\"") ++ "`") :=
  ⟨by decide,
    (generateFieldsTypes_annotation_order plainExternals scenarioOneColumns (by decide)).1⟩

/-- C10: with neither flag and every column of a supported type, each
declaration is exactly the identifier, one space and the type, with nothing
after the type. -/
theorem generateFieldsTypes_no_annotation (x : Externals) (cols : List ColumnType)
    (hall : ∀ c ∈ cols, supported x c) :
    ∃ out, generateFieldsTypes x cols 0 false false = .ok out ∧ out.length = cols.length ∧
      ∀ (k : Nat) (c : ColumnType), cols[k]? = some c →
        ∃ ty, sqlTypeToGoType (stringsToLower x c.DatabaseTypeName) c.Nullable = .ok ty ∧
          out[k]? = some (x.FmtFieldName (x.stringifyFirstChar c.Name) ++ " " ++ ty) := by
  obtain ⟨out, h1, h2, h3⟩ := generateFieldsTypes_supported x cols 0 false false hall
  refine ⟨out, h1, h2, fun k c hk => ?_⟩
  obtain ⟨ty, h4, h5⟩ := h3 k c hk
  rw [fieldDeclaration_plain] at h5
  exact ⟨ty, h4, h5⟩

theorem generateFieldsTypes_no_annotation_witness :
    (∀ c ∈ scenarioOneColumns, supported plainExternals c) ∧
    ∃ out, generateFieldsTypes plainExternals scenarioOneColumns 0 false false = .ok out ∧
      out.length = scenarioOneColumns.length ∧
      ∀ (k : Nat) (c : ColumnType), scenarioOneColumns[k]? = some c →
        ∃ ty, sqlTypeToGoType (stringsToLower plainExternals c.DatabaseTypeName)
            c.Nullable = .ok ty ∧
          out[k]? = some (plainExternals.FmtFieldName
              (plainExternals.stringifyFirstChar c.Name) ++ " " ++ ty) :=
  ⟨by decide,
    generateFieldsTypes_no_annotation plainExternals scenarioOneColumns (by decide)⟩

end Dbmeta

namespace Dbmeta

/-! ## Further lemmas on the type mapper and the loop -/

theorem sqlTypeToGoType_ok_mem (t : String) (n : Bool) (ty : String)
    (h : sqlTypeToGoType t n = .ok ty) : t ∈ mappedTypes ∧ ty ∈ targetTypes := by
  by_cases ht : t ∈ mappedTypes
  · refine ⟨ht, ?_⟩
    simp only [mappedTypes, scalarTypes, byteTypes, List.cons_append, List.nil_append,
      List.mem_cons, List.mem_singleton, List.not_mem_nil, or_false] at ht
    cases n <;>
    rcases ht with e | e | e | e | e | e | e | e | e | e | e | e | e | e | e | e | e | e | e
      | e | e | e <;>
      subst e <;> injection h with h <;> subst h <;> decide
  · rw [sqlTypeToGoType_unmapped t n ht] at h
    cases h

theorem sqlTypeToGoType_ne_empty (t : String) (n : Bool) : sqlTypeToGoType t n ≠ .ok "" := by
  intro h
  have := (sqlTypeToGoType_ok_mem t n "" h).2
  revert this
  decide

theorem generateFieldsLoop_length (x : Externals) (j g : Bool) (cols : List ColumnType) :
    ∀ (i : Nat) (acc out : List String), generateFieldsLoop x j g i cols acc = .ok out →
      out.length = acc.length + cols.length := by
  induction cols with
  | nil =>
    intro i acc out h
    simp only [generateFieldsLoop] at h
    injection h with h
    simp [h]
  | cons c rest ih =>
    intro i acc out h
    cases hty : sqlTypeToGoType (stringsToLower x c.DatabaseTypeName) c.Nullable with
    | error msg =>
      simp only [generateFieldsLoop, hty] at h
      cases h
    | ok ty =>
      have hne : ty ≠ "" := fun e => sqlTypeToGoType_ne_empty _ _ (e ▸ hty)
      simp only [generateFieldsLoop, hty, if_neg hne] at h
      have := ih _ _ _ h
      simp only [List.length_append, List.length_cons, List.length_nil] at this ⊢
      omega

theorem generateFieldsLoop_congr (x : Externals) (j g : Bool) (cols cols' : List ColumnType)
    (h : List.Forall₂ (sameUpToTypeCase x) cols cols') :
    ∀ (i : Nat) (acc : List String),
      generateFieldsLoop x j g i cols acc = generateFieldsLoop x j g i cols' acc := by
  induction h with
  | nil => intro i acc; rfl
  | cons hcd _ ih =>
    intro i acc
    obtain ⟨h1, h2, h3⟩ := hcd
    simp only [generateFieldsLoop, h1, h2, h3, ih]

/-! ## Matching of type names -/

/-- C11, as the claim states it, fails: `sqlTypeToGoType` itself is case
sensitive. On `INT` it panics, on the lower-cased name it returns `int32`,
whatever the case table above U+00FF is. -/
theorem sqlTypeToGoType_case_sensitive :
    (¬ ∃ x, sqlTypeToGoType "INT" false = sqlTypeToGoType (stringsToLower x "INT") false) ∧
      sqlTypeToGoType "INT" false = .error "unsupported mysql type INT" ∧
      sqlTypeToGoType (stringsToLower plainExternals "INT") false = .ok "int32" := by
  refine ⟨?_, rfl, rfl⟩
  rintro ⟨x, h⟩
  have h1 : sqlTypeToGoType "INT" false = .error "unsupported mysql type INT" := rfl
  have h2 : sqlTypeToGoType (stringsToLower x "INT") false = .ok "int32" := rfl
  rw [h1, h2] at h
  cases h

/-- C11, amended: the lookup is case-insensitive in `generateFieldsTypes`,
which lower-cases the database type name before it calls `sqlTypeToGoType`:
column lists that differ only in the case of their type names give the same
result, and `INT`, `Int` and `int` all lower-case to `int`. `sqlTypeToGoType`
itself returns a type exactly for the names that equal one of its lower-case
`case` labels, so `INT`, `int(11)` and `varchar(255)` are not recognized by
it. -/
theorem generateFieldsTypes_case_insensitive (x : Externals) :
    (∀ (cols cols' : List ColumnType) (d : Int) (j g : Bool),
      List.Forall₂ (sameUpToTypeCase x) cols cols' →
        generateFieldsTypes x cols d j g = generateFieldsTypes x cols' d j g) ∧
    (stringsToLower x "INT" = "int" ∧ stringsToLower x "Int" = "int" ∧
      stringsToLower x "int" = "int") ∧
    (∀ (t : String) (n : Bool), (∃ ty, sqlTypeToGoType t n = .ok ty) ↔ t ∈ mappedTypes) ∧
    "INT" ∉ mappedTypes ∧ "int(11)" ∉ mappedTypes ∧ "varchar(255)" ∉ mappedTypes := by
  refine ⟨?_, ⟨rfl, rfl, rfl⟩, ?_, by decide, by decide, by decide⟩
  · intro cols cols' d j g h
    exact generateFieldsLoop_congr x j g cols cols' h 0 []
  · intro t n
    constructor
    · rintro ⟨ty, h⟩
      exact (sqlTypeToGoType_ok_mem t n ty h).1
    · intro h
      obtain ⟨ty, _, hty⟩ := sqlTypeToGoType_mapped t n h
      exact ⟨ty, hty⟩

theorem generateFieldsTypes_case_insensitive_witness :
    generateFieldsTypes plainExternals
        [{ Name := "id", DatabaseTypeName := "INT", Nullable := false }] 0 true true =
      generateFieldsTypes plainExternals
        [{ Name := "id", DatabaseTypeName := "Int", Nullable := false }] 0 true true :=
  (generateFieldsTypes_case_insensitive plainExternals).1 _ _ 0 true true
    (List.Forall₂.cons ⟨rfl, rfl, rfl⟩ List.Forall₂.nil)

/-- C14: on non-nullable input `sqlTypeToGoType` is the category table: every
entry of the table is returned, and a name gets a type only through an entry
of the table. -/
theorem sqlTypeToGoType_is_category_table :
    (∀ p, p ∈ categoryTable → sqlTypeToGoType p.1 false = .ok p.2) ∧
    (∀ (t ty : String), sqlTypeToGoType t false = .ok ty → (t, ty) ∈ categoryTable) ∧
    (∀ (t : String), (∀ ty, (t, ty) ∉ categoryTable) →
      sqlTypeToGoType t false = .error ("unsupported mysql type " ++ t)) := by
  refine ⟨?_, ?_, ?_⟩
  · intro p hp
    simp only [categoryTable, List.mem_cons, List.mem_singleton, List.not_mem_nil,
      or_false] at hp
    rcases hp with e | e | e | e | e | e | e | e | e | e | e | e | e | e | e | e | e | e | e
      | e | e | e <;> subst e <;> rfl
  · intro t ty h
    have ht := (sqlTypeToGoType_ok_mem t false ty h).1
    simp only [mappedTypes, scalarTypes, byteTypes, List.cons_append, List.nil_append,
      List.mem_cons, List.mem_singleton, List.not_mem_nil, or_false] at ht
    rcases ht with e | e | e | e | e | e | e | e | e | e | e | e | e | e | e | e | e | e | e
      | e | e | e <;> subst e <;> injection h with h <;> subst h <;> decide
  · intro t ht
    apply sqlTypeToGoType_unmapped
    intro hmem
    simp only [mappedTypes, scalarTypes, byteTypes, List.cons_append, List.nil_append,
      List.mem_cons, List.mem_singleton, List.not_mem_nil, or_false] at hmem
    rcases hmem with e | e | e | e | e | e | e | e | e | e | e | e | e | e | e | e | e | e
      | e | e | e | e <;> subst e <;>
      first
        | exact ht "int8" (by decide)
        | exact ht "int32" (by decide)
        | exact ht "int64" (by decide)
        | exact ht "string" (by decide)
        | exact ht "time.Time" (by decide)
        | exact ht "float64" (by decide)
        | exact ht "float32" (by decide)
        | exact ht "[]byte" (by decide)

theorem sqlTypeToGoType_is_category_table_witness :
    sqlTypeToGoType "double" false = .ok "float64" ∧
      sqlTypeToGoType "uuid" false = .error ("unsupported mysql type " ++ "uuid") :=
  ⟨sqlTypeToGoType_is_category_table.1 ("double", "float64") (by decide),
    sqlTypeToGoType_is_category_table.2.2 "uuid"
      (by intro ty h; simp [categoryTable] at h)⟩

/-- C17: `sqlTypeToGoType` returns one of the fifteen target type strings,
none of them empty, or panics with `unsupported mysql type ` and the name; it
never returns the empty string, so the loop of `generateFieldsTypes` never
skips a column, and when `generateFieldsTypes` returns, its output has as many
declarations as there are columns. -/
theorem sqlTypeToGoType_never_empty :
    (∀ (t : String) (n : Bool),
      (∃ ty, ty ∈ targetTypes ∧ sqlTypeToGoType t n = .ok ty) ∨
        sqlTypeToGoType t n = .error ("unsupported mysql type " ++ t)) ∧
    targetTypes.length = 15 ∧ "" ∉ targetTypes ∧
    (∀ (t : String) (n : Bool), sqlTypeToGoType t n ≠ .ok "") ∧
    (∀ (x : Externals) (cols : List ColumnType) (d : Int) (j g : Bool) (out : List String),
      generateFieldsTypes x cols d j g = .ok out → out.length = cols.length) := by
  refine ⟨?_, rfl, by decide, sqlTypeToGoType_ne_empty, ?_⟩
  · intro t n
    by_cases ht : t ∈ mappedTypes
    · obtain ⟨ty, _, hty⟩ := sqlTypeToGoType_mapped t n ht
      exact Or.inl ⟨ty, (sqlTypeToGoType_ok_mem t n ty hty).2, hty⟩
    · exact Or.inr (sqlTypeToGoType_unmapped t n ht)
  · intro x cols d j g out h
    have := generateFieldsLoop_length x j g cols 0 [] out h
    simpa using this

theorem sqlTypeToGoType_never_empty_witness :
    ∃ out, generateFieldsTypes plainExternals scenarioOneColumns 0 true true = .ok out ∧
      out.length = scenarioOneColumns.length :=
  ⟨_, rfl,
    sqlTypeToGoType_never_empty.2.2.2.2 plainExternals scenarioOneColumns 0 true true _ rfl⟩

/-! ## Order of the declarations -/

/-- C13: when every column has a supported type, `generateFieldsTypes` returns
as many declarations as there are columns, and the `k`-th declaration is the
one built from the name of the `k`-th column and from the type found for its
type name and nullability. -/
theorem generateFieldsTypes_one_per_column (x : Externals) (cols : List ColumnType)
    (j g : Bool) (hall : ∀ c ∈ cols, supported x c) :
    ∃ out, generateFieldsTypes x cols 0 j g = .ok out ∧ out.length = cols.length ∧
      ∀ (k : Nat) (c : ColumnType), cols[k]? = some c →
        ∃ ty, sqlTypeToGoType (stringsToLower x c.DatabaseTypeName) c.Nullable = .ok ty ∧
          ty ∈ targetTypes ∧
          out[k]? = some (fieldDeclaration x j g k c.Name ty) := by
  obtain ⟨out, h1, h2, h3⟩ := generateFieldsTypes_supported x cols 0 j g hall
  refine ⟨out, h1, h2, fun k c hk => ?_⟩
  obtain ⟨ty, h4, h5⟩ := h3 k c hk
  exact ⟨ty, h4, (sqlTypeToGoType_ok_mem _ _ ty h4).2, h5⟩

theorem generateFieldsTypes_one_per_column_witness :
    (∀ c ∈ scenarioOneColumns, supported plainExternals c) ∧
    ∃ out, generateFieldsTypes plainExternals scenarioOneColumns 0 true false = .ok out ∧
      out.length = scenarioOneColumns.length ∧
      ∀ (k : Nat) (c : ColumnType), scenarioOneColumns[k]? = some c →
        ∃ ty, sqlTypeToGoType (stringsToLower plainExternals c.DatabaseTypeName)
            c.Nullable = .ok ty ∧
          ty ∈ targetTypes ∧
          out[k]? = some (fieldDeclaration plainExternals true false k c.Name ty) :=
  ⟨by decide,
    generateFieldsTypes_one_per_column plainExternals scenarioOneColumns true false
      (by decide)⟩

/-! ## The model builder, continued -/

theorem GenerateStruct_of_fields (x : Externals) (db : String → List ColumnType)
    (tableName structName pkgName : String) (j g : Bool) (fields : List String)
    (hf : generateFieldsTypes x (db tableName) 0 j g = .ok fields) :
    GenerateStruct x db tableName structName pkgName j g =
      (stringIndex structName 0).map (fun b =>
        { PackageName := pkgName, StructName := structName, TableName := tableName,
          ShortStructName := stringsToLower x (stringOfByte b), Fields := fields }) := by
  simp only [GenerateStruct, hf, bind, Except.bind, pure, Except.pure]
  cases stringIndex structName 0 <;> rfl

theorem GenerateStruct_of_panic (x : Externals) (db : String → List ColumnType)
    (tableName structName pkgName : String) (j g : Bool) (msg : String)
    (hf : generateFieldsTypes x (db tableName) 0 j g = .error msg) :
    GenerateStruct x db tableName structName pkgName j g = .error msg := by
  simp only [GenerateStruct, hf, bind, Except.bind]

/-- C12: with an empty `structName`, `GenerateStruct` returns no model: it
panics, on the index expression `structName[0]` when the fields were
generated. With a non-empty `structName` the index expression gives a byte,
and `GenerateStruct` returns a model whenever the fields are generated. -/
theorem GenerateStruct_empty_name_panics (x : Externals) (db : String → List ColumnType)
    (tableName pkgName : String) (j g : Bool) :
    (∃ msg, GenerateStruct x db tableName "" pkgName j g = .error msg) ∧
    (∀ fields, generateFieldsTypes x (db tableName) 0 j g = .ok fields →
      GenerateStruct x db tableName "" pkgName j g =
        .error "runtime error: index out of range [0] with length 0") ∧
    (∀ structName, structName ≠ "" →
      (∃ b, stringIndex structName 0 = .ok b) ∧
      ∀ fields, generateFieldsTypes x (db tableName) 0 j g = .ok fields →
        ∃ m, GenerateStruct x db tableName structName pkgName j g = .ok m) := by
  have hempty : ∀ fields, generateFieldsTypes x (db tableName) 0 j g = .ok fields →
      GenerateStruct x db tableName "" pkgName j g =
        .error "runtime error: index out of range [0] with length 0" := by
    intro fields hf
    rw [GenerateStruct_of_fields x db tableName "" pkgName j g fields hf]
    rfl
  refine ⟨?_, hempty, ?_⟩
  · cases hf : generateFieldsTypes x (db tableName) 0 j g with
    | error msg => exact ⟨msg, GenerateStruct_of_panic x db tableName "" pkgName j g msg hf⟩
    | ok fields => exact ⟨_, hempty fields hf⟩
  · intro structName hne
    obtain ⟨b, _, hb⟩ := stringIndex_zero structName hne
    refine ⟨⟨b, hb⟩, fun fields hf => ?_⟩
    rw [GenerateStruct_of_fields x db tableName structName pkgName j g fields hf, hb]
    exact ⟨_, rfl⟩

theorem GenerateStruct_empty_name_panics_witness :
    GenerateStruct plainExternals (fun _ => scenarioOneColumns) "users" "" "model" true true =
      .error "runtime error: index out of range [0] with length 0" ∧
    ∃ m, GenerateStruct plainExternals (fun _ => scenarioOneColumns) "users" "User" "model"
      true true = .ok m :=
  ⟨(GenerateStruct_empty_name_panics plainExternals (fun _ => scenarioOneColumns) "users"
      "model" true true).2.1 _ rfl,
    ((GenerateStruct_empty_name_panics plainExternals (fun _ => scenarioOneColumns) "users"
      "model" true true).2.2 "User" (by decide)).2 _ rfl⟩

/-- C18: for a non-empty `structName`, whenever the fields of the table are
generated, `GenerateStruct` returns a model whose `PackageName`, `StructName`
and `TableName` are the arguments as given and whose `Fields` are the result of
`generateFieldsTypes` on the columns of the table with the same two flags. -/
theorem GenerateStruct_copies_arguments (x : Externals) (db : String → List ColumnType)
    (tableName structName pkgName : String) (j g : Bool) (fields : List String)
    (hne : structName ≠ "")
    (hf : generateFieldsTypes x (db tableName) 0 j g = .ok fields) :
    ∃ m, GenerateStruct x db tableName structName pkgName j g = .ok m ∧
      m.PackageName = pkgName ∧ m.StructName = structName ∧ m.TableName = tableName ∧
      m.Fields = fields := by
  obtain ⟨b, _, hb⟩ := stringIndex_zero structName hne
  rw [GenerateStruct_of_fields x db tableName structName pkgName j g fields hf, hb]
  exact ⟨_, rfl, rfl, rfl, rfl, rfl⟩

theorem GenerateStruct_copies_arguments_witness :
    "User" ≠ "" ∧
    ∃ m, GenerateStruct plainExternals (fun _ => scenarioOneColumns) "user_accounts" "User"
        "model" true false = .ok m ∧
      m.PackageName = "model" ∧ m.StructName = "User" ∧ m.TableName = "user_accounts" ∧
      m.Fields = ["id int32 `json:\"id\"`", "api_key *string `json:\"api_key\"`"] :=
  ⟨by decide,
    GenerateStruct_copies_arguments plainExternals (fun _ => scenarioOneColumns)
      "user_accounts" "User" "model" true false _ (by decide) rfl⟩

end Dbmeta

namespace Main

open Dbmeta

/-! ## `camelToLowerCamel` -/

theorem stringsJoin_cons_singletons (l : List Char) :
    ∀ a : String, stringsJoin (a :: l.map String.singleton) "" = a ++ String.mk l := by
  induction l with
  | nil =>
    intro a
    apply String.ext
    simp [stringsJoin]
  | cons c cs ih =>
    intro a
    simp only [List.map_cons, stringsJoin, ih]
    apply String.ext
    simp [String.singleton]

theorem unicodeToLower_idem (x : Externals)
    (habove : ∀ c : Char, 0xFF < c.toNat →
      unicodeToLower x (x.toLowerAbove c) = x.toLowerAbove c) (c : Char) :
    unicodeToLower x (unicodeToLower x c) = unicodeToLower x c := by
  by_cases h : c.toNat < 256
  · have hc : c = Char.ofNat c.toNat := (Char.ofNat_toNat c).symm
    obtain ⟨hlt, hidem⟩ := toLowerLatin1_idem c.toNat h
    rw [hc, unicodeToLower_ofNat x _ h, unicodeToLower_ofNat x _ hlt, hidem]
  · have h1 : unicodeToLower x c = x.toLowerAbove c := by
      unfold unicodeToLower
      rw [if_neg (by omega), if_neg (by omega)]
    rw [h1]
    exact habove c (by omega)

theorem camelToLowerCamel_cons (x : Externals) (c : Char) (rest : List Char) :
    camelToLowerCamel x (String.mk (c :: rest)) = .ok (String.mk (unicodeToLower x c :: rest)) := by
  simp only [camelToLowerCamel, stringsSplitChars, List.map_cons, List.getElem?_cons_zero,
    List.set_cons_zero, stringsJoin_cons_singletons]
  congr 1

/-- C19: on a non-empty string `camelToLowerCamel` returns the string with its
first character lower-cased and the later characters unchanged; the result has
as many characters as the argument and, lower-casing being idempotent on the
runes above U+00FF as it is below, is returned unchanged by a second call. On
the empty string it panics, the index 0 being out of range. -/
theorem camelToLowerCamel_lowers_first (x : Externals)
    (habove : ∀ c : Char, 0xFF < c.toNat →
      unicodeToLower x (x.toLowerAbove c) = x.toLowerAbove c) :
    (∀ (s : String) (c : Char) (rest : List Char), s.data = c :: rest →
      camelToLowerCamel x s = .ok (String.mk (unicodeToLower x c :: rest)) ∧
      (String.mk (unicodeToLower x c :: rest)).length = s.length ∧
      camelToLowerCamel x (String.mk (unicodeToLower x c :: rest)) =
        .ok (String.mk (unicodeToLower x c :: rest))) ∧
    (∀ s : String, s ≠ "" → ∃ c rest, s.data = c :: rest) ∧
    camelToLowerCamel x "" = .error "runtime error: index out of range [0] with length 0" := by
  refine ⟨?_, ?_, rfl⟩
  · intro s c rest hs
    have hs' : s = String.mk (c :: rest) := String.ext hs
    subst hs'
    refine ⟨camelToLowerCamel_cons x c rest, rfl, ?_⟩
    rw [camelToLowerCamel_cons, unicodeToLower_idem x habove]
  · intro s hne
    obtain ⟨l⟩ := s
    cases l with
    | nil => exact absurd rfl hne
    | cons c rest => exact ⟨c, rest, rfl⟩

theorem camelToLowerCamel_lowers_first_witness :
    camelToLowerCamel plainExternals "ÉlanVital" = .ok "élanVital" ∧
      ("élanVital").length = ("ÉlanVital").length ∧
      camelToLowerCamel plainExternals "élanVital" = .ok "élanVital" :=
  (camelToLowerCamel_lowers_first plainExternals (fun c hc => by
      show unicodeToLower plainExternals c = c
      unfold unicodeToLower
      rw [if_neg (by omega), if_neg (by omega)]
      rfl)).1 "ÉlanVital" 'É' "lanVital".data rfl

end Main

namespace Dbmeta

/-! ## Lemmas on the identifier formatter -/

end Dbmeta

namespace Main

open Dbmeta

/-! ## The struct name of a table -/

/-- C16: for the table name `2fa_codes` the formatter makes the leading digit
`2` a segment of its own, spells it `two` from `intToWordMap` and then cases
the segments, which gives `TwoFaCodes`; the struct name is the singular form
of that, and it begins with the letter `T` when the singularizer keeps the
first character. -/
theorem structName_spells_leading_digit (singular : String → String)
    (hs : (singular "TwoFaCodes").data.head? = ("TwoFaCodes").data.head?) :
    wordSegments ("2fa_codes").data = [("2").data, ("fa").data, ("codes").data] ∧
      spellDigit ("2").data = ("two").data ∧
      FmtFieldName "2fa_codes" = "TwoFaCodes" ∧
      structName singular "2fa_codes" = singular "TwoFaCodes" ∧
      (structName singular "2fa_codes").data.head? = some 'T' := by
  refine ⟨by decide, by decide, by decide, rfl, ?_⟩
  have h : structName singular "2fa_codes" = singular "TwoFaCodes" := rfl
  rw [h, hs]
  rfl

theorem structName_spells_leading_digit_witness :
    structName dropFinalS "2fa_codes" = "TwoFaCode" ∧
      (structName dropFinalS "2fa_codes").data.head? = some 'T' :=
  ⟨(structName_spells_leading_digit dropFinalS (by decide)).2.2.2.1.trans (by decide),
    (structName_spells_leading_digit dropFinalS (by decide)).2.2.2.2⟩

end Main
